import Mathlib

/-!
Shallow embedding of the WeatherScraper repository core
(`weather_scraper.py`, `data_storage.py`, `city_autocomplete.py`).

Network and clock inputs are passed explicitly: each operation takes the
outcome of its HTTP request(s) as an `Except`-valued argument (the error
covers transport failures, non-2xx statuses raised by `raise_for_status`,
and JSON decoding failures at the place the Python code would raise), and
the current time as an explicit parameter.  Numeric JSON payloads are
modelled as `ℚ` (exact rationals standing for the Python floats), machine
integers as `Int`/`Nat`, and timestamps as minutes counted from an epoch
that falls on a Monday 00:00 local time.
-/

/-- Python `int()` applied to a float/rational: truncation toward zero. -/
def pyInt (q : ℚ) : Int :=
  if 0 ≤ q then ⌊q⌋ else ⌈q⌉

/-- Helper for Python `str.title()`: walk the characters remembering whether
the previous character was alphabetic. -/
def pyTitleAux : Bool → List Char → List Char
  | _, [] => []
  | prevAlpha, c :: cs =>
    let c' := if c.isAlpha then (if prevAlpha then c.toLower else c.toUpper) else c
    c' :: pyTitleAux c.isAlpha cs

/-- Python `str.title()`: first letter of every alphabetic run upper-cased,
the rest lower-cased. -/
def pyTitle (s : String) : String :=
  ⟨pyTitleAux false s.data⟩

/-! ## weather_scraper.py -/

/-- The fields `get_current_weather` reads out of a successfully fetched and
decoded wttr.in `format=j1` document.  `areaName`, `country` and `region`
are `Option` because the Python code reads them with `.get` defaults; the
remaining fields come straight out of `current_condition[0]` as strings. -/
structure WttrDoc where
  areaName : Option String
  country : Option String
  region : Option String
  temp_C : String
  feelsLikeC : String
  weatherDescValue : String
  humidity : String
  windspeedKmph : String
  winddir16Point : String
  pressure : String
  visibility : String
  uvIndex : String
  precipMM : String
  weatherCode : String
  deriving DecidableEq

/-- The fields `_get_weather_from_owm` reads out of an OpenWeatherMap
current-weather document.  `windDeg` models `data['wind'].get('deg', 0)`
and `visibility` models `data.get('visibility', 10000)`. -/
structure OwmDoc where
  name : String
  sysCountry : String
  temp : ℚ
  feelsLike : ℚ
  description : String
  humidity : Int
  windSpeed : ℚ
  windDeg : Option ℚ
  pressure : Int
  visibility : Option Int
  weatherId : Int
  deriving DecidableEq

/-- The normalized current-weather dictionary both providers are mapped to.
`timestamp` stands for `datetime.now().isoformat()` (minutes since the
Monday epoch). -/
structure WeatherData where
  city : String
  country : String
  region : String
  temperature : String
  feels_like : String
  condition : String
  humidity : String
  wind_speed : String
  wind_direction : String
  pressure : String
  visibility : String
  uv_index : String
  precipitation : String
  weather_code : String
  timestamp : Nat
  source : String
  deriving DecidableEq

/-- The 16-point compass table of `WeatherScraper._degrees_to_direction`. -/
def directionsTable : List String :=
  ["N", "NNE", "NE", "ENE", "E", "ESE", "SE", "SSE",
   "S", "SSW", "SW", "WSW", "W", "WNW", "NW", "NNW"]

/-- `WeatherScraper._degrees_to_direction`:
`index = int((degrees + 11.25) / 22.5) % 16`, Python `int` truncating
toward zero and Python `%` being `Int.emod` for a positive modulus. -/
def degrees_to_direction (degrees : ℚ) : String :=
  directionsTable.getD ((pyInt ((degrees + 11.25) / 22.5) % 16).toNat) ""

/-- `WeatherScraper._get_weather_from_owm`, applied to an already decoded
response document (the caller handles the request failing). -/
def get_weather_from_owm (d : OwmDoc) (now : Nat) : WeatherData :=
  { city := d.name
    country := d.sysCountry
    region := ""
    temperature := toString (pyInt d.temp)
    feels_like := toString (pyInt d.feelsLike)
    condition := pyTitle d.description
    humidity := toString d.humidity
    wind_speed := toString (pyInt (d.windSpeed * 3.6))
    wind_direction := degrees_to_direction (d.windDeg.getD 0)
    pressure := toString d.pressure
    visibility := toString (pyInt ((d.visibility.getD 10000 : ℚ) / 1000))
    uv_index := "0"
    precipitation := "0"
    weather_code := toString d.weatherId
    timestamp := now
    source := "OpenWeatherMap" }

/-- `WeatherScraper.get_current_weather`.  `primary` is the outcome of the
wttr.in fetch-and-extract (any exception inside the `try` block collapses
to `.error`), `owmKey` is `OPENWEATHERMAP_API_KEY`, and `fallback` is the
outcome of the OpenWeatherMap request made by `_get_weather_from_owm`. -/
def get_current_weather (city : String) (now : Nat) (owmKey : Option String)
    (primary : Except String WttrDoc) (fallback : Except String OwmDoc) :
    Except String WeatherData :=
  match primary with
  | .ok d =>
    .ok { city := d.areaName.getD (pyTitle city)
          country := d.country.getD "Unknown"
          region := d.region.getD ""
          temperature := d.temp_C
          feels_like := d.feelsLikeC
          condition := d.weatherDescValue
          humidity := d.humidity
          wind_speed := d.windspeedKmph
          wind_direction := d.winddir16Point
          pressure := d.pressure
          visibility := d.visibility
          uv_index := d.uvIndex
          precipitation := d.precipMM
          weather_code := d.weatherCode
          timestamp := now
          source := "wttr.in" }
  | .error e =>
    match owmKey with
    | some _ =>
      match fallback with
      | .ok od => .ok (get_weather_from_owm od now)
      | .error owmError =>
        .error ("Both sources failed - wttr.in: " ++ e ++ ", OpenWeatherMap: " ++ owmError)
    | none =>
      .error ("wttr.in failed and no OpenWeatherMap API key configured: " ++ e)

/-- One entry of a wttr.in daily block's `hourly[]` array, with
`weatherDescValue` standing for `weatherDesc[0]['value']`. -/
structure WttrHour where
  time : String
  tempC : String
  feelsLikeC : String
  weatherDescValue : String
  precipMM : String
  humidity : String
  windspeedKmph : String
  chanceofrain : String
  deriving DecidableEq

/-- One entry of a daily block's `astronomy[]` array. -/
structure WttrAstro where
  sunrise : String
  sunset : String
  moonrise : String
  moonset : String
  moon_phase : String
  deriving DecidableEq

/-- One daily block of the wttr.in `weather[]` array. -/
structure WttrDaily where
  date : String
  maxtempC : String
  mintempC : String
  avgtempC : String
  hourly : List WttrHour
  astronomy : List WttrAstro
  totalSnow_cm : String
  sunHour : String
  uvIndex : String
  deriving DecidableEq

/-- The part of the wttr.in `format=j1` document `get_tomorrow_forecast`
reads: the `weather[]` daily array. -/
structure WttrForecastDoc where
  weather : List WttrDaily
  deriving DecidableEq

/-- The hourly dictionary built by `WeatherScraper._parse_hourly` for each
hour. -/
structure HourlyForecast where
  time : String
  temp : String
  feels_like : String
  condition : String
  precipitation : String
  humidity : String
  wind_speed : String
  chance_of_rain : String
  deriving DecidableEq

/-- `WeatherScraper._parse_hourly`: verbatim field mapping, order
preserved. -/
def parse_hourly (hourly_data : List WttrHour) : List HourlyForecast :=
  hourly_data.map fun hour =>
    { time := hour.time
      temp := hour.tempC
      feels_like := hour.feelsLikeC
      condition := hour.weatherDescValue
      precipitation := hour.precipMM
      humidity := hour.humidity
      wind_speed := hour.windspeedKmph
      chance_of_rain := hour.chanceofrain }

/-- The forecast dictionary returned by `get_tomorrow_forecast`. -/
structure ForecastData where
  date : String
  max_temp : String
  min_temp : String
  avg_temp : String
  condition : String
  sunrise : String
  sunset : String
  moonrise : String
  moonset : String
  moon_phase : String
  total_snow : String
  sun_hour : String
  uv_index : String
  hourly_forecast : List HourlyForecast
  deriving DecidableEq

/-- Building the forecast dictionary from the chosen daily block.
`tomorrow['hourly'][4]` and `tomorrow['astronomy'][0]` raise `IndexError`
when the arrays are too short; the surrounding handler turns that into the
parse-failure message. -/
def build_tomorrow (tomorrow : WttrDaily) : Except String ForecastData :=
  match tomorrow.hourly.get? 4, tomorrow.astronomy.get? 0 with
  | some midday, some astro =>
    .ok { date := tomorrow.date
          max_temp := tomorrow.maxtempC
          min_temp := tomorrow.mintempC
          avg_temp := tomorrow.avgtempC
          condition := midday.weatherDescValue
          sunrise := astro.sunrise
          sunset := astro.sunset
          moonrise := astro.moonrise
          moonset := astro.moonset
          moon_phase := astro.moon_phase
          total_snow := tomorrow.totalSnow_cm
          sun_hour := tomorrow.sunHour
          uv_index := tomorrow.uvIndex
          hourly_forecast := parse_hourly tomorrow.hourly }
  | _, _ => .error "Failed to parse forecast data: list index out of range"

/-- `WeatherScraper.get_tomorrow_forecast`.  `resp` is the outcome of the
wttr.in request plus JSON decode; `len(data['weather']) > 1` selects index
1 (the second daily block), otherwise the method raises
`"Tomorrow's forecast not available"`, which no `except` clause catches. -/
def get_tomorrow_forecast (resp : Except String WttrForecastDoc) :
    Except String ForecastData :=
  match resp with
  | .error e => .error ("Failed to fetch forecast data: " ++ e)
  | .ok data =>
    match data.weather.get? 1 with
    | some tomorrow => build_tomorrow tomorrow
    | none => .error "Tomorrow's forecast not available"

/-! ### get_historical_weather -/

/-- The fields the geocoding step of `get_historical_weather` reads from
its OpenWeatherMap current-weather response (`coord`, `name`,
`sys.country`). -/
structure OwmGeoDoc where
  lat : ℚ
  lon : ℚ
  name : String
  sysCountry : String
  deriving DecidableEq

/-- The fields each per-day request reads from its response body. -/
structure OwmDayData where
  temp : ℚ
  humidity : Int
  description : String
  deriving DecidableEq

/-- Outcome of one per-day `requests.get` inside the loop: either the call
raised, or it returned a response with an HTTP status and a decoded
body. -/
inductive HistDayOutcome where
  | raised (e : String)
  | resp (status : Nat) (data : OwmDayData)
  deriving DecidableEq

/-- One element of the list `get_historical_weather` returns.  `timestamp`
is `target_date` (noon, `offset` days ago) in minutes, `date` the day index
of that date. -/
structure HistEntry where
  city : String
  country : String
  temperature : String
  humidity : String
  condition : String
  timestamp : Int
  date : Int
  deriving DecidableEq

/-- `target_date` for a day offset: now minus `offset` days, with the time
replaced by 12:00 (720 minutes into the day). -/
def histTargetDate (now : Nat) (offset : Nat) : Int :=
  ((now : Int) / 1440 - offset) * 1440 + 720

/-- The per-day loop of `get_historical_weather` over the offsets it visits,
threading the exception behaviour: a raising request aborts the whole
`try` block (discarding entries already collected), a non-200 status is
silently skipped, a 200 response is appended in order. -/
def histLoop (geo : OwmGeoDoc) (now : Nat) (dayReq : Nat → HistDayOutcome) :
    List Nat → Except String (List HistEntry)
  | [] => .ok []
  | offset :: rest =>
    match dayReq offset with
    | .raised e => .error e
    | .resp status d =>
      match histLoop geo now dayReq rest with
      | .error e => .error e
      | .ok tail =>
        .ok (if status = 200 then
              { city := geo.name
                country := geo.sysCountry
                temperature := toString (pyInt d.temp)
                humidity := toString d.humidity
                condition := pyTitle d.description
                timestamp := histTargetDate now offset
                date := (now : Int) / 1440 - offset } :: tail
             else tail)

/-- The body of `get_historical_weather`'s `try` block: geocode, then loop
over `range(1, min(days + 1, 8))`, i.e. offsets `1 .. min days 7`. -/
def histBody (geocode : Except String OwmGeoDoc) (days : Nat) (now : Nat)
    (dayReq : Nat → HistDayOutcome) : Except String (List HistEntry) :=
  match geocode with
  | .error e => .error e
  | .ok geo => histLoop geo now dayReq (List.range' 1 (min days 7))

/-- `WeatherScraper.get_historical_weather`: no API key short-circuits to
`[]` before any request; otherwise the `except Exception` handler collapses
every raised error to `[]`, so the method always returns a plain list and
never raises to its caller. -/
def get_historical_weather (owmKey : Option String) (days : Nat) (now : Nat)
    (geocode : Except String OwmGeoDoc) (dayReq : Nat → HistDayOutcome) :
    List HistEntry :=
  match owmKey with
  | none => []
  | some _ =>
    match histBody geocode days now dayReq with
    | .error _ => []
    | .ok l => l

/-! ## data_storage.py -/

/-- One entry of the persisted search-history array. -/
structure SearchEntry where
  city : String
  timestamp : Nat
  deriving DecidableEq

/-- `DataStorage.add_search`: read the persisted list, drop every entry
whose city matches case-insensitively, insert the new entry at the front,
keep the first 20, write back. -/
def add_search (city : String) (now : Nat) (searches : List SearchEntry) :
    List SearchEntry :=
  (({ city := city, timestamp := now } : SearchEntry) ::
    searches.filter (fun s => s.city.toLower != city.toLower)).take 20

/-- `DataStorage.get_search_history`: project the city names. -/
def get_search_history (searches : List SearchEntry) : List String :=
  searches.map (·.city)

/-- Running a sequence of `add_search` calls against the persisted file,
starting from a given file state; each call supplies `datetime.now()`. -/
def runSearches (calls : List (String × Nat)) : List SearchEntry :=
  calls.foldl (fun s c => add_search c.1 c.2 s) []

/-- One persisted weather snapshot.  `timestamp` is `none` when the stored
dictionary lacks a `timestamp` key or its value does not parse as a
datetime (both are skipped by `_filter_current_week`); `payload` stands for
the rest of the snapshot dictionary. -/
structure WEntry where
  timestamp : Option Nat
  payload : String
  deriving DecidableEq

/-- Start of the current week: `now` minus `now.weekday()` days, with the
time-of-day zeroed.  With minutes-since-a-Monday-epoch timestamps the
weekday of `t` is `(t / 1440) % 7`. -/
def weekStart (now : Nat) : Nat :=
  (now / 1440 - now / 1440 % 7) * 1440

/-- `DataStorage._filter_current_week`: keep entries whose parsed timestamp
is at or after the Monday 00:00 of `now`'s week; entries with a missing or
unparsable timestamp are skipped. -/
def filter_current_week (now : Nat) (data_list : List WEntry) : List WEntry :=
  data_list.filter fun e =>
    match e.timestamp with
    | some ts => decide (weekStart now ≤ ts)
    | none => false

/-- The persisted weather-history file: a JSON object mapping lowercased
city keys to snapshot arrays, as an association list. -/
abbrev HistStore := List (String × List WEntry)

/-- Dictionary lookup on the weather-history file. -/
def storeGet (s : HistStore) (k : String) : Option (List WEntry) :=
  (List.find? (fun p => p.1 == k) s).map (·.2)

/-- Dictionary assignment on the weather-history file. -/
def storeSet (s : HistStore) (k : String) (v : List WEntry) : HistStore :=
  if List.any s (fun p => p.1 == k) then
    List.map (fun p => if p.1 == k then (k, v) else p) s
  else
    s ++ [(k, v)]

/-- `DataStorage.get_weather_history`: read the file, look up the
lowercased city, filter the returned list to the current week.  The method
performs no `_write_json`, so the file state is returned unchanged. -/
def get_weather_history (now : Nat) (city : String) (s : HistStore) :
    List WEntry × HistStore :=
  (match storeGet s city.toLower with
   | none => []
   | some l => filter_current_week now l, s)

/-- `DataStorage.save_weather_data`: append the snapshot (stamping `now`
when it has no timestamp) to the city's list, purge to the current week,
write back. -/
def save_weather_data (now : Nat) (city : String) (w : WEntry) (s : HistStore) :
    HistStore :=
  let key := city.toLower
  let cur := (storeGet s key).getD []
  let w' : WEntry :=
    match w.timestamp with
    | none => { w with timestamp := some now }
    | some _ => w
  storeSet s key (filter_current_week now (cur ++ [w']))

/-- `DataStorage.clear_old_data`: apply the week purge to every city and
write the file back. -/
def clear_old_data (now : Nat) (s : HistStore) : HistStore :=
  List.map (fun p => (p.1, filter_current_week now p.2)) s

/-! ## city_autocomplete.py -/

/-- One element of the Nominatim result array, restricted to the fields
`search_cities` reads.  `none` models an absent key (so `.get` takes its
default); a present-but-empty string stays `some ""` and is falsy for the
`or` chains. -/
structure RawPlace where
  addrCity : Option String
  addrTown : Option String
  addrVillage : Option String
  addrMunicipality : Option String
  name : Option String
  addrCountry : Option String
  addrCountryCode : Option String
  addrState : Option String
  deriving DecidableEq

/-- Python `a or b` for an optional string `a`: keep `a` when present and
non-empty (truthy), else use `b`. -/
def orTruthy (a : Option String) (b : String) : String :=
  match a with
  | some s => if s = "" then b else s
  | none => b

/-- One entry of the city list `search_cities` builds. -/
structure CityDict where
  display : String
  value : String
  city : String
  country : String
  country_code : String
  state : String
  deriving DecidableEq

/-- The per-result body of the `for result in results` loop: the
first-truthy chain for the city name, `.get` defaults for the rest, and the
`if city_name and country` guard with the United States special case. -/
def processPlace (r : RawPlace) : Option CityDict :=
  let city_name :=
    orTruthy r.addrCity (orTruthy r.addrTown (orTruthy r.addrVillage
      (orTruthy r.addrMunicipality (r.name.getD ""))))
  let country := r.addrCountry.getD "Unknown"
  let country_code := (r.addrCountryCode.getD "").toUpper
  let state := r.addrState.getD ""
  if city_name ≠ "" ∧ country ≠ "" then
    if state ≠ "" ∧ country = "United States" then
      some { display := city_name ++ ", " ++ state ++ ", " ++ country_code
             value := city_name ++ "," ++ state ++ "," ++ country
             city := city_name, country := country
             country_code := country_code, state := state }
    else
      some { display := city_name ++ ", " ++ country
             value := city_name ++ "," ++ country
             city := city_name, country := country
             country_code := country_code, state := state }
  else none

/-- Deduplication by `display` with a `seen` set, first occurrence wins. -/
def dedupeByDisplay (seen : List String) : List CityDict → List CityDict
  | [] => []
  | c :: cs =>
    if c.display ∈ seen then dedupeByDisplay seen cs
    else c :: dedupeByDisplay (c.display :: seen) cs

/-- The process-local mutable state of `CityAutocomplete`: the query cache
and `last_request_time` (seconds, as an exact rational). -/
structure CAState where
  cache : List (String × List CityDict)
  lastRequestTime : ℚ
  deriving DecidableEq

/-- The cache key `f"{query.lower()}_{limit}"`. -/
def cacheKey (query : String) (limit : Nat) : String :=
  query.toLower ++ "_" ++ toString limit

/-- Everything one `search_cities` call produces: its return value, the
state it leaves behind, whether it issued an outbound Nominatim request,
and if so at what wall-clock time the request went out. -/
structure SearchOutcome where
  result : List CityDict
  state : CAState
  issued : Bool
  issueTime : Option ℚ
  deriving DecidableEq

/-- `CityAutocomplete.search_cities`.  `now` is `time.time()` at the
rate-limit check; a call that sleeps issues its request at
`lastRequestTime + 1`, otherwise at `now`.  `net` is the outcome of the
outbound exchange: the outer `Except` covers `requests.get` and
`raise_for_status` (raised before `last_request_time` is updated), the
inner one covers `response.json()` (raised after); `respTime` is
`time.time()` right after `raise_for_status`.  Only a fully successful call
stores into the cache; the `except Exception` handler returns `[]`. -/
def search_cities (query : String) (limit : Nat) (now respTime : ℚ)
    (net : Except String (Except String (List RawPlace))) (st : CAState) :
    SearchOutcome :=
  if query.length < 2 then
    { result := [], state := st, issued := false, issueTime := none }
  else
    let key := cacheKey query limit
    match (List.find? (fun p => p.1 == key) st.cache).map (·.2) with
    | some cached =>
      { result := cached, state := st, issued := false, issueTime := none }
    | none =>
      let issueT := if now - st.lastRequestTime < 1 then st.lastRequestTime + 1 else now
      match net with
      | .error _ =>
        { result := [], state := st, issued := true, issueTime := some issueT }
      | .ok inner =>
        match inner with
        | .error _ =>
          { result := [], state := { st with lastRequestTime := respTime },
            issued := true, issueTime := some issueT }
        | .ok results =>
          let unique_cities := dedupeByDisplay [] (results.filterMap processPlace)
          { result := unique_cities,
            state := { cache := (key, unique_cities) :: st.cache,
                       lastRequestTime := respTime },
            issued := true, issueTime := some issueT }

/-! ## Theorems -/

/-- C1: for every city, if the primary provider's current-weather request
fails and either the fallback provider also fails or no fallback API key is
configured, `get_current_weather` fails with an error whose message names
both attempted sources (`wttr.in`, `OpenWeatherMap`) and their individual
failure reasons, or states that no fallback was configured; it never
returns a weather value in that situation. -/
theorem c1_source_unavailable (city : String) (now : Nat)
    (owmKey : Option String) (primary : Except String WttrDoc)
    (fallback : Except String OwmDoc) (e : String)
    (hp : primary = .error e) :
    (owmKey = none →
      get_current_weather city now owmKey primary fallback =
        .error ("wttr.in failed and no OpenWeatherMap API key configured: " ++ e)) ∧
    (∀ k f, owmKey = some k → fallback = .error f →
      get_current_weather city now owmKey primary fallback =
        .error ("Both sources failed - wttr.in: " ++ e ++ ", OpenWeatherMap: " ++ f)) ∧
    ((owmKey = none ∨ ∃ f, fallback = .error f) →
      ∀ w, get_current_weather city now owmKey primary fallback ≠ .ok w) := by
  subst hp
  refine ⟨fun hk => ?_, fun k f hk hf => ?_, fun hor w => ?_⟩
  · subst hk; rfl
  · subst hk; subst hf; rfl
  · rcases hor with hk | ⟨f, hf⟩
    · subst hk; simp [get_current_weather]
    · subst hf; cases owmKey <;> simp [get_current_weather]

/-- Witness for C1 at concrete inputs: both branches of the failure
message. -/
theorem c1_source_unavailable_witness :
    get_current_weather "Paris" 0 none (.error "timeout") (.error "401") =
      .error "wttr.in failed and no OpenWeatherMap API key configured: timeout" ∧
    get_current_weather "Paris" 0 (some "k") (.error "timeout") (.error "401") =
      .error "Both sources failed - wttr.in: timeout, OpenWeatherMap: 401" := by
  constructor
  · exact (c1_source_unavailable "Paris" 0 none (.error "timeout")
      (.error "401") "timeout" rfl).1 rfl
  · exact (c1_source_unavailable "Paris" 0 (some "k") (.error "timeout")
      (.error "401") "timeout" rfl).2.1 "k" "401" rfl rfl

/-- The wind-direction formula exactly as the spec words it:
`index = round((deg + 11.25) / 22.5) mod 16` against the standard table,
with `round` rounding to the nearest integer. -/
def windDirRoundSpec (deg : ℚ) : String :=
  directionsTable.getD ((round ((deg + 11.25) / 22.5) % 16).toNat) ""

/-- The wind-direction formula as the code actually computes it, worded
from the amended claim: `index = int((deg + 11.25) / 22.5) mod 16` where
`int` truncates toward zero — for a non-negative bearing this is the floor,
not round-to-nearest. -/
def windDirFloorSpec (deg : ℚ) : String :=
  directionsTable.getD ((⌊(deg + 11.25) / 22.5⌋ % 16).toNat) ""

/-- A concrete fallback-provider document with `wind.deg = 25`. -/
def c2Doc : OwmDoc :=
  { name := "Lyon", sysCountry := "FR", temp := 10, feelsLike := 9
    description := "clear sky", humidity := 50, windSpeed := 2
    windDeg := some 25, pressure := 1013, visibility := some 10000
    weatherId := 800 }

/-- C2, counterexample: for the fallback bearing 25°, the code (reached
through `get_current_weather` with the primary down) reports `"NNE"`,
while the spec's `round((deg + 11.25) / 22.5) mod 16` formula selects
index 2, i.e. `"NE"`: the spec's `round` disagrees with the code's
truncating `int`. -/
theorem c2_wind_direction_counterexample :
    (get_current_weather "Lyon" 0 (some "k") (.error "down")
        (.ok c2Doc)).toOption.map WeatherData.wind_direction = some "NNE" ∧
    windDirRoundSpec 25 = "NE" ∧
    (get_current_weather "Lyon" 0 (some "k") (.error "down")
        (.ok c2Doc)).toOption.map WeatherData.wind_direction ≠
      some (windDirRoundSpec 25) := by
  refine ⟨?_, ?_, ?_⟩ <;> with_unfolding_all decide

/-- On non-negative rationals Python `int()` is the floor. -/
theorem pyInt_eq_floor {q : ℚ} (h : 0 ≤ q) : pyInt q = ⌊q⌋ := by
  simp [pyInt, h]

/-- C2, amended: for every wind bearing `deg ≥ 0` supplied by the fallback
provider, the wind direction reported by `get_current_weather` on the
fallback path equals the entry at index `int((deg + 11.25) / 22.5) mod 16`
of the standard table, where `int` truncates toward zero (the floor of
the non-negative quotient) — not round-to-nearest. -/
theorem c2_wind_direction_amended (city : String) (now : Nat) (k e : String)
    (d : OwmDoc) (deg : ℚ) (hdeg : d.windDeg = some deg) (hnn : 0 ≤ deg) :
    ∃ w, get_current_weather city now (some k) (.error e) (.ok d) = .ok w ∧
      w.wind_direction = windDirFloorSpec deg := by
  refine ⟨get_weather_from_owm d now, rfl, ?_⟩
  have hq : (0 : ℚ) ≤ (deg + 11.25) / 22.5 := by positivity
  simp [get_weather_from_owm, degrees_to_direction, windDirFloorSpec, hdeg,
    pyInt_eq_floor hq]

/-- Witness for C2 amended at bearing 25°: the selected entry is the
floor-indexed one, `"NNE"`. -/
theorem c2_wind_direction_amended_witness :
    (∃ w, get_current_weather "Lyon" 0 (some "k") (.error "down")
        (.ok c2Doc) = .ok w ∧ w.wind_direction = windDirFloorSpec 25) ∧
    windDirFloorSpec 25 = "NNE" := by
  constructor
  · exact c2_wind_direction_amended "Lyon" 0 "k" "down" c2Doc 25
      (by with_unfolding_all decide) (by norm_num)
  · with_unfolding_all decide

/-- The wind-speed conversion exactly as the spec words it: multiply by
3.6 and round to the nearest integer. -/
def windSpeedKmhRoundSpec (s : ℚ) : String :=
  toString (round (s * 3.6))

/-- The wind-speed conversion as the code computes it, worded from the
amended claim: multiply by 3.6 and truncate toward zero (`int()`). -/
def windSpeedKmhTruncSpec (s : ℚ) : String :=
  toString (pyInt (s * 3.6))

/-- A concrete fallback-provider document with `wind.speed = 5.5` m/s. -/
def c3Doc : OwmDoc :=
  { name := "Oslo", sysCountry := "NO", temp := 4, feelsLike := 1
    description := "light rain", humidity := 80, windSpeed := 11 / 2
    windDeg := some 0, pressure := 1001, visibility := some 9000
    weatherId := 500 }

/-- C3, counterexample: for `wind.speed = 5.5` m/s the code (reached
through `get_current_weather` with the primary down) reports
`5.5 × 3.6 = 19.8` truncated to `"19"`, while the spec's round-to-nearest
gives `"20"`. -/
theorem c3_wind_speed_counterexample :
    (get_current_weather "Oslo" 0 (some "k") (.error "down")
        (.ok c3Doc)).toOption.map WeatherData.wind_speed = some "19" ∧
    windSpeedKmhRoundSpec (11 / 2) = "20" ∧
    (get_current_weather "Oslo" 0 (some "k") (.error "down")
        (.ok c3Doc)).toOption.map WeatherData.wind_speed ≠
      some (windSpeedKmhRoundSpec (11 / 2)) := by
  refine ⟨?_, ?_, ?_⟩ <;> with_unfolding_all decide

/-- C3, amended: for every non-negative wind speed `s` (m/s) in a
fallback-provider response, the `wind_speed` field produced by
`get_current_weather` on the fallback path equals `s × 3.6` truncated
toward zero (`int()`, the floor of the non-negative product), not rounded
to nearest; in particular `5.0` maps to `"18"`. -/
theorem c3_wind_speed_amended (city : String) (now : Nat) (k e : String)
    (d : OwmDoc) (hnn : 0 ≤ d.windSpeed) :
    (∃ w, get_current_weather city now (some k) (.error e) (.ok d) = .ok w ∧
      w.wind_speed = windSpeedKmhTruncSpec d.windSpeed ∧
      w.wind_speed = toString ⌊d.windSpeed * 3.6⌋) ∧
    windSpeedKmhTruncSpec 5 = "18" := by
  constructor
  · refine ⟨get_weather_from_owm d now, rfl, rfl, ?_⟩
    have hq : (0 : ℚ) ≤ d.windSpeed * 3.6 := by
      have : (0 : ℚ) ≤ 3.6 := by norm_num
      exact mul_nonneg hnn this
    simp [get_weather_from_owm, pyInt_eq_floor hq]
  · with_unfolding_all decide

/-- Witness for C3 amended at `wind.speed = 5.0`: the mapped field is
`"18"`. -/
theorem c3_wind_speed_amended_witness :
    ∃ w, get_current_weather "Oslo" 0 (some "k") (.error "down")
        (.ok { c3Doc with windSpeed := 5 }) = .ok w ∧
      w.wind_speed = windSpeedKmhTruncSpec 5 ∧
      w.wind_speed = toString ⌊(5 : ℚ) * 3.6⌋ :=
  (c3_wind_speed_amended "Oslo" 0 "k" "down" { c3Doc with windSpeed := 5 }
    (by norm_num)).1

/-- C4: `get_tomorrow_forecast` fails with the ForecastUnavailable message
whenever the decoded document has fewer than 2 daily blocks, and whenever
it succeeds the returned forecast is built from the daily block at index 1
of the document. -/
theorem c4_tomorrow_forecast (resp : Except String WttrForecastDoc) :
    (∀ doc, resp = .ok doc → doc.weather.length < 2 →
      get_tomorrow_forecast resp = .error "Tomorrow's forecast not available") ∧
    (∀ fd, get_tomorrow_forecast resp = .ok fd →
      ∃ doc tomorrow, resp = .ok doc ∧ doc.weather.get? 1 = some tomorrow ∧
        build_tomorrow tomorrow = .ok fd) := by
  constructor
  · rintro doc rfl hlen
    have h1 : doc.weather[1]? = none := by
      rw [← List.get?_eq_getElem?]
      exact List.get?_eq_none.mpr (by omega)
    simp [get_tomorrow_forecast, h1]
  · intro fd hok
    match hr : resp with
    | .error e => simp [get_tomorrow_forecast] at hok
    | .ok doc =>
      match h1 : doc.weather.get? 1 with
      | none =>
        rw [List.get?_eq_getElem?] at h1
        simp [get_tomorrow_forecast, h1] at hok
      | some tomorrow =>
        refine ⟨doc, tomorrow, rfl, h1, ?_⟩
        rw [List.get?_eq_getElem?] at h1
        simpa [get_tomorrow_forecast, h1] using hok

/-- A concrete daily block used by the C4 witness. -/
def c4Daily : WttrDaily :=
  { date := "2026-10-12", maxtempC := "18", mintempC := "9", avgtempC := "13"
    hourly := [], astronomy := [], totalSnow_cm := "0.0", sunHour := "8.0"
    uvIndex := "4" }

/-- Witness for C4: a response with a single daily block fails with the
ForecastUnavailable message. -/
theorem c4_tomorrow_forecast_witness :
    get_tomorrow_forecast (.ok { weather := [c4Daily] }) =
      .error "Tomorrow's forecast not available" :=
  (c4_tomorrow_forecast (.ok { weather := [c4Daily] })).1
    { weather := [c4Daily] } rfl (by simp)

/-- If any per-day request in the visited offset list raises, the loop
aborts with that first exception (so no partial list survives). -/
theorem histLoop_error_of_raised (geo : OwmGeoDoc) (now : Nat)
    (dayReq : Nat → HistDayOutcome) (offsets : List Nat) (i : Nat) (e : String)
    (hi : i ∈ offsets) (hr : dayReq i = .raised e) :
    ∃ e', histLoop geo now dayReq offsets = .error e' := by
  induction offsets with
  | nil => cases hi
  | cons o rest ih =>
    rcases List.mem_cons.mp hi with rfl | hmem
    · exact ⟨e, by simp [histLoop, hr]⟩
    · match ho : dayReq o with
      | .raised e'' => exact ⟨e'', by simp [histLoop, ho]⟩
      | .resp status d =>
        obtain ⟨e', he'⟩ := ih hmem
        exact ⟨e', by simp [histLoop, ho, he']⟩

/-- C5: with an API key configured, any failure during the initial
geocoding request, or any exception raised during the per-day request
loop (at an offset the loop visits, i.e. `1 ≤ i ≤ min days 7`), makes
`get_historical_weather` return the empty list; the `except` handler means
the function returns a plain list in every case, never propagating an
error. -/
theorem c5_historical_failures_swallowed (k : String)
    (days : Nat) (now : Nat) (geocode : Except String OwmGeoDoc)
    (dayReq : Nat → HistDayOutcome) :
    (∀ e, geocode = .error e →
      get_historical_weather (some k) days now geocode dayReq = []) ∧
    (∀ g i e, geocode = .ok g → 1 ≤ i → i ≤ min days 7 → dayReq i = .raised e →
      get_historical_weather (some k) days now geocode dayReq = []) := by
  constructor
  · rintro e rfl
    rfl
  · rintro g i e rfl h1 h2 hr
    have hi : i ∈ List.range' 1 (min days 7) := by
      rw [List.mem_range']
      exact ⟨i - 1, by omega, by omega⟩
    obtain ⟨e', he'⟩ := histLoop_error_of_raised g now dayReq _ i e hi hr
    simp [get_historical_weather, histBody, he']

/-- Witness for C5: a geocoding failure and a raising day-3 request each
produce the empty list. -/
theorem c5_historical_failures_swallowed_witness :
    get_historical_weather (some "k") 7 20000 (.error "404")
      (fun _ => .raised "conn") = [] ∧
    get_historical_weather (some "k") 7 20000
      (.ok { lat := 48, lon := 2, name := "Paris", sysCountry := "FR" })
      (fun i => if i = 3 then .raised "conn"
                else .resp 200 { temp := 12, humidity := 60,
                                 description := "clear sky" }) = [] := by
  constructor
  · exact (c5_historical_failures_swallowed "k" 7 20000 (.error "404")
      (fun _ => .raised "conn")).1 "404" rfl
  · exact (c5_historical_failures_swallowed "k" 7 20000
      (.ok { lat := 48, lon := 2, name := "Paris", sysCountry := "FR" })
      (fun i => if i = 3 then .raised "conn"
                else .resp 200 { temp := 12, humidity := 60,
                                 description := "clear sky" })).2
      { lat := 48, lon := 2, name := "Paris", sysCountry := "FR" }
      3 "conn" rfl (by norm_num) (by norm_num) (by norm_num)

/-- The timestamps a trace of `add_search` calls supplies are nondecreasing
(each call reads `datetime.now()` after the previous one), starting at or
after `t`. -/
def timesMono : Nat → List (String × Nat) → Prop
  | _, [] => True
  | t, c :: cs => t ≤ c.2 ∧ timesMono c.2 cs

/-- The search-history file invariant at clock value `t`: at most 20
entries, cities pairwise distinct case-insensitively, newest first, all
timestamps at most `t`. -/
def SearchInv (t : Nat) (s : List SearchEntry) : Prop :=
  s.length ≤ 20 ∧
  s.Pairwise (fun a b => a.city.toLower ≠ b.city.toLower) ∧
  s.Pairwise (fun a b => b.timestamp ≤ a.timestamp) ∧
  ∀ e ∈ s, e.timestamp ≤ t

/-- One `add_search` call preserves the invariant as the clock moves
forward. -/
theorem SearchInv.step {t t' : Nat} {s : List SearchEntry}
    (h : SearchInv t s) (ht : t ≤ t') (c : String) :
    SearchInv t' (add_search c t' s) := by
  obtain ⟨hlen, hcity, hsort, hbound⟩ := h
  have hsubf : List.Sublist (s.filter (fun e => e.city.toLower != c.toLower)) s :=
    List.filter_sublist s
  have hmemf : ∀ e ∈ s.filter (fun e => e.city.toLower != c.toLower),
      e ∈ s ∧ e.city.toLower ≠ c.toLower := by
    intro e he
    obtain ⟨hes, hp⟩ := List.mem_filter.mp he
    exact ⟨hes, by simpa using hp⟩
  refine ⟨?_, ?_, ?_, ?_⟩
  · simp only [add_search]
    exact List.length_take_le 20 _
  · refine List.Pairwise.sublist (List.take_sublist _ _) ?_
    refine List.pairwise_cons.mpr ⟨?_, List.Pairwise.sublist hsubf hcity⟩
    intro b hb
    exact fun hc => (hmemf b hb).2 hc.symm
  · refine List.Pairwise.sublist (List.take_sublist _ _) ?_
    refine List.pairwise_cons.mpr ⟨?_, List.Pairwise.sublist hsubf hsort⟩
    intro b hb
    exact le_trans (hbound b (hmemf b hb).1) ht
  · intro e he
    have := (List.take_sublist _ _).subset he
    rcases List.mem_cons.mp this with rfl | hmem
    · exact le_refl t'
    · exact le_trans (hbound e (hmemf e hmem).1) ht

/-- Running a monotone trace of calls from any invariant state lands in an
invariant state. -/
theorem searchInv_run (calls : List (String × Nat)) :
    ∀ t s, SearchInv t s → timesMono t calls →
      ∃ t', SearchInv t'
        (calls.foldl (fun acc c => add_search c.1 c.2 acc) s) := by
  induction calls with
  | nil => exact fun t s h _ => ⟨t, h⟩
  | cons c rest ih =>
    intro t s h hm
    obtain ⟨h1, h2⟩ : t ≤ c.2 ∧ timesMono c.2 rest := hm
    exact ih c.2 _ (h.step h1 c.1) h2

/-- C6: after any finite monotone-clock trace of `add_search` calls
starting from the empty file, the persisted search history has at most 20
entries, at most one entry per case-insensitive city name, and is ordered
newest-first; and the `"Paris"` then `"paris"` trace leaves exactly the
single entry `{city := "paris"}` at the front. -/
theorem c6_search_history_invariant (calls : List (String × Nat))
    (hmono : timesMono 0 calls) :
    (runSearches calls).length ≤ 20 ∧
    (runSearches calls).Pairwise (fun a b => a.city.toLower ≠ b.city.toLower) ∧
    (runSearches calls).Pairwise (fun a b => b.timestamp ≤ a.timestamp) ∧
    ∀ t1 t2 : Nat, runSearches [("Paris", t1), ("paris", t2)] =
      [{ city := "paris", timestamp := t2 }] := by
  have h0 : SearchInv 0 [] := ⟨by simp, by simp, by simp, by simp⟩
  obtain ⟨t', h⟩ := searchInv_run calls 0 [] h0 hmono
  refine ⟨h.1, h.2.1, h.2.2.1, ?_⟩
  intro t1 t2
  have hpl : "Paris".toLower = "paris" := by with_unfolding_all rfl
  have hpl2 : "paris".toLower = "paris" := by with_unfolding_all rfl
  simp [runSearches, add_search, hpl, hpl2]

/-- Witness for C6 on a concrete three-call trace (with a case-insensitive
repeat). -/
theorem c6_search_history_invariant_witness :
    (runSearches [("Paris", 1), ("paris", 2), ("London", 5)]).length ≤ 20 ∧
    (runSearches [("Paris", 1), ("paris", 2), ("London", 5)]).Pairwise
      (fun a b => a.city.toLower ≠ b.city.toLower) ∧
    (runSearches [("Paris", 1), ("paris", 2), ("London", 5)]).Pairwise
      (fun a b => b.timestamp ≤ a.timestamp) := by
  have h := c6_search_history_invariant [("Paris", 1), ("paris", 2), ("London", 5)]
    (by simp [timesMono])
  exact ⟨h.1, h.2.1, h.2.2.1⟩

/-- Every entry surviving `_filter_current_week` carries a parsed timestamp
at or after the Monday 00:00 of the current week. -/
theorem mem_filter_current_week {now : Nat} {l : List WEntry} {e : WEntry}
    (he : e ∈ filter_current_week now l) :
    ∃ ts, e.timestamp = some ts ∧ weekStart now ≤ ts := by
  obtain ⟨_, hp⟩ := List.mem_filter.mp he
  match hts : e.timestamp with
  | none => rw [hts] at hp; simp at hp
  | some ts =>
    refine ⟨ts, rfl, ?_⟩
    rw [hts] at hp
    simpa using hp

/-- C7: every entry returned by `get_weather_history` has a timestamp at
or after the most recent Monday 00:00; no entry from before the current
calendar week is ever returned. -/
theorem c7_weather_history_current_week (now : Nat) (city : String)
    (s : HistStore) (e : WEntry)
    (he : e ∈ (get_weather_history now city s).1) :
    ∃ ts, e.timestamp = some ts ∧ weekStart now ≤ ts := by
  unfold get_weather_history at he
  match h : storeGet s city.toLower with
  | none => rw [h] at he; cases he
  | some l =>
    rw [h] at he
    exact mem_filter_current_week he

/-- Witness store for C7/C10: one in-week and one out-of-week entry for
`paris`.  `now = 10180` has week start `10080`. -/
def c7Store : HistStore :=
  [("paris", [{ timestamp := some 10090, payload := "sunny" },
              { timestamp := some 9000, payload := "stale" },
              { timestamp := none, payload := "corrupt" }])]

/-- Witness for C7: the in-week entry is returned and the theorem yields
its bound. -/
theorem c7_weather_history_current_week_witness :
    ({ timestamp := some 10090, payload := "sunny" } : WEntry) ∈
      (get_weather_history 10180 "Paris" c7Store).1 ∧
    ∃ ts, ({ timestamp := some 10090, payload := "sunny" } : WEntry).timestamp
        = some ts ∧ weekStart 10180 ≤ ts := by
  have hl : "Paris".toLower = "paris" := by with_unfolding_all rfl
  have hmem : ({ timestamp := some 10090, payload := "sunny" } : WEntry) ∈
      (get_weather_history 10180 "Paris" c7Store).1 := by
    unfold get_weather_history
    rw [hl]
    decide
  exact ⟨hmem, c7_weather_history_current_week 10180 "Paris" c7Store _ hmem⟩

/-- C10: `get_weather_history` leaves the persisted weather-history file
unchanged (the week purge is applied only to the returned sequence), while
the write operations do purge: every city list in the store written by
`clear_old_data` contains only current-week entries, and
`save_weather_data` writes the city's list as a week-filtered list. -/
theorem c10_get_weather_history_frame (now : Nat) (city : String)
    (s : HistStore) :
    (get_weather_history now city s).2 = s ∧
    (∀ key l, (key, l) ∈ clear_old_data now s →
      ∀ e ∈ l, ∃ ts, e.timestamp = some ts ∧ weekStart now ≤ ts) ∧
    (∀ w, ∃ l', save_weather_data now city w s =
        storeSet s city.toLower l' ∧
      ∀ e ∈ l', ∃ ts, e.timestamp = some ts ∧ weekStart now ≤ ts) := by
  refine ⟨rfl, ?_, ?_⟩
  · intro key l hmem e he
    unfold clear_old_data at hmem
    obtain ⟨⟨k0, l0⟩, _, hpair⟩ := List.mem_map.mp hmem
    obtain ⟨rfl, rfl⟩ := Prod.mk.injEq .. ▸ hpair
    exact mem_filter_current_week he
  · intro w
    exact ⟨_, rfl, fun e he => mem_filter_current_week he⟩

/-- Witness for C10: on the concrete store the file is unchanged by the
read, the out-of-week entry is still on disk afterwards but absent from
the returned list, and `clear_old_data` purges it. -/
theorem c10_get_weather_history_frame_witness :
    (get_weather_history 10180 "Paris" c7Store).2 = c7Store ∧
    ({ timestamp := some 9000, payload := "stale" } : WEntry) ∉
      (get_weather_history 10180 "Paris" c7Store).1 ∧
    (∀ e ∈ [({ timestamp := some 10090, payload := "sunny" } : WEntry)],
      ∃ ts, e.timestamp = some ts ∧ weekStart 10180 ≤ ts) := by
  have hl : "Paris".toLower = "paris" := by with_unfolding_all rfl
  have h := c10_get_weather_history_frame 10180 "Paris" c7Store
  have hnot : ({ timestamp := some 9000, payload := "stale" } : WEntry) ∉
      (get_weather_history 10180 "Paris" c7Store).1 := by
    unfold get_weather_history
    rw [hl]
    decide
  refine ⟨h.1, hnot, ?_⟩
  intro e he
  have hcl : ("paris", [({ timestamp := some 10090, payload := "sunny" } : WEntry)])
      ∈ clear_old_data 10180 c7Store := by decide
  exact h.2.1 "paris" _ hcl e he

/-- The fresh `CityAutocomplete()` state: empty cache,
`last_request_time = 0`. -/
def caInit : CAState := { cache := [], lastRequestTime := 0 }

/-- A Nominatim result for Paris, France. -/
def parisPlace : RawPlace :=
  { addrCity := some "Paris", addrTown := none, addrVillage := none
    addrMunicipality := none, name := some "Paris"
    addrCountry := some "France", addrCountryCode := some "fr"
    addrState := none }

/-- C8, counterexample: on a fresh state, a first `search_cities "par" 10`
whose request fails returns `[]` and caches nothing, so repeating the
identical call issues a second outbound request (and can return a
different sequence).  The claim that the second identical call never
issues a network request is false when the first call failed. -/
theorem c8_cache_counterexample :
    (search_cities "par" 10 100 100 (.error "timeout") caInit).result = [] ∧
    (search_cities "par" 10 100 100 (.error "timeout") caInit).issued = true ∧
    (search_cities "par" 10 200 200 (.ok (.ok [parisPlace]))
        (search_cities "par" 10 100 100 (.error "timeout") caInit).state).issued
      = true ∧
    (search_cities "par" 10 200 200 (.ok (.ok [parisPlace]))
        (search_cities "par" 10 100 100 (.error "timeout") caInit).state).result
      ≠ (search_cities "par" 10 100 100 (.error "timeout") caInit).result := by
  refine ⟨?_, ?_, ?_, ?_⟩ <;> with_unfolding_all decide

/-- C8, amended: repeating an identical `search_cities (query, limit)`
call returns the identical sequence and issues no second outbound request,
provided the first call did not fail: either it already returned without
issuing a request (short query or cache hit), or its request and JSON
decode succeeded so its result was cached.  (A failed first call caches
nothing, returns `[]`, and the repeat issues a new request.) -/
theorem c8_cache_amended (q : String) (l : Nat) (st : CAState)
    (now1 resp1 now2 resp2 : ℚ)
    (net1 net2 : Except String (Except String (List RawPlace)))
    (h : (search_cities q l now1 resp1 net1 st).issued = false ∨
         ∃ ps, net1 = .ok (.ok ps)) :
    (search_cities q l now2 resp2 net2
        (search_cities q l now1 resp1 net1 st).state).result
      = (search_cities q l now1 resp1 net1 st).result ∧
    (search_cities q l now2 resp2 net2
        (search_cities q l now1 resp1 net1 st).state).issued = false := by
  by_cases hshort : q.length < 2
  · constructor <;> simp [search_cities, hshort]
  · match hc : (List.find? (fun p => p.1 == cacheKey q l) st.cache).map (·.2) with
    | some cached =>
      constructor <;> simp [search_cities, hshort, hc]
    | none =>
      match hnet : net1 with
      | .error e =>
        exfalso
        rcases h with hiss | ⟨ps, hps⟩
        · simp [search_cities, hshort, hc] at hiss
        · exact Except.noConfusion hps
      | .ok (.error e) =>
        exfalso
        rcases h with hiss | ⟨ps, hps⟩
        · simp [search_cities, hshort, hc] at hiss
        · rw [Except.ok.injEq] at hps
          exact Except.noConfusion hps
      | .ok (.ok ps) =>
        have hfind : List.find? (fun p => p.1 == cacheKey q l)
            ((cacheKey q l, dedupeByDisplay [] (ps.filterMap processPlace)) ::
              st.cache)
            = some (cacheKey q l,
                dedupeByDisplay [] (ps.filterMap processPlace)) :=
          List.find?_cons_of_pos _ (by simp)
        constructor <;>
          simp [search_cities, hshort, hc, hfind]

/-- Witness for C8 amended: a successful first call is served from the
cache the second time, with no second request. -/
theorem c8_cache_amended_witness :
    (search_cities "par" 10 200 200 (.error "down")
        (search_cities "par" 10 100 100 (.ok (.ok [parisPlace])) caInit).state).result
      = (search_cities "par" 10 100 100 (.ok (.ok [parisPlace])) caInit).result ∧
    (search_cities "par" 10 200 200 (.error "down")
        (search_cities "par" 10 100 100 (.ok (.ok [parisPlace])) caInit).state).issued
      = false :=
  c8_cache_amended "par" 10 caInit 100 100 200 200
    (.ok (.ok [parisPlace])) (.error "down") (.inr ⟨[parisPlace], rfl⟩)

/-- C9, counterexample: a first `search_cities` call whose outbound
request fails at the HTTP layer does not update `last_request_time`, so a
second call can issue its outbound request only half a second after the
first one (`100` and `100.5`): the 1-second spacing between consecutive
outbound calls is not enforced after a failed request. -/
theorem c9_rate_limit_counterexample :
    (search_cities "lo" 10 100 100 (.error "conn") caInit).issued = true ∧
    (search_cities "lo" 10 100 100 (.error "conn") caInit).issueTime
      = some 100 ∧
    (search_cities "lo" 10 (201 / 2) (201 / 2) (.ok (.ok []))
        (search_cities "lo" 10 100 100 (.error "conn") caInit).state).issued
      = true ∧
    (search_cities "lo" 10 (201 / 2) (201 / 2) (.ok (.ok []))
        (search_cities "lo" 10 100 100 (.error "conn") caInit).state).issueTime
      = some (201 / 2) ∧
    (201 / 2 : ℚ) - 100 < 1 := by
  refine ⟨?_, ?_, ?_, ?_, ?_⟩ <;> with_unfolding_all decide

/-- A call that issues its outbound request does so at
`lastRequestTime + 1` when less than a second has passed, else at `now`. -/
theorem search_cities_issueTime_eq (q : String) (l : Nat) (now resp : ℚ)
    (net : Except String (Except String (List RawPlace))) (st : CAState)
    (t : ℚ) (h : (search_cities q l now resp net st).issueTime = some t) :
    t = if now - st.lastRequestTime < 1 then st.lastRequestTime + 1
        else now := by
  simp only [search_cities] at h
  by_cases hshort : q.length < 2
  · simp [hshort] at h
  · rw [if_neg hshort] at h
    match hc : (List.find? (fun p => p.1 == cacheKey q l) st.cache).map (·.2) with
    | some cached => rw [hc] at h; cases h
    | none =>
      rw [hc] at h
      match net with
      | .error e => exact (Option.some.inj h).symm
      | .ok (.error e) => exact (Option.some.inj h).symm
      | .ok (.ok ps) => exact (Option.some.inj h).symm

/-- A call that issues its outbound request and whose HTTP exchange
completes (outer `.ok`, whatever the JSON decode does) records `respTime`
as the new `last_request_time`. -/
theorem search_cities_state_of_ok (q : String) (l : Nat) (now resp : ℚ)
    (inner : Except String (List RawPlace)) (st : CAState) (t : ℚ)
    (h : (search_cities q l now resp (.ok inner) st).issueTime = some t) :
    (search_cities q l now resp (.ok inner) st).state.lastRequestTime
      = resp := by
  simp only [search_cities] at h ⊢
  by_cases hshort : q.length < 2
  · simp [hshort] at h
  · rw [if_neg hshort] at h ⊢
    match hc : (List.find? (fun p => p.1 == cacheKey q l) st.cache).map (·.2) with
    | some cached => rw [hc] at h; cases h
    | none =>
      rw [hc] at h ⊢
      match inner with
      | .error e => rfl
      | .ok ps => rfl

/-- C9, amended: for two consecutive `search_cities` calls that each issue
an outbound geocoding request, if the earlier request's HTTP exchange
completed (the only case in which the rate limiter's timestamp is
updated, to the completion time `resp1 ≥ t1`), then the later outbound
request goes out at least 1 second after the earlier one; and when the
second call starts less than 1 second after that completion, it blocks and
issues exactly at `resp1 + 1`.  (After a request that fails at the HTTP
layer the timestamp is not updated, and the next request may follow in
under 1 second.) -/
theorem c9_rate_limit_amended (q1 q2 : String) (l1 l2 : Nat) (st : CAState)
    (now1 resp1 now2 resp2 : ℚ) (inner1 : Except String (List RawPlace))
    (net2 : Except String (Except String (List RawPlace))) (t1 t2 : ℚ)
    (h1 : (search_cities q1 l1 now1 resp1 (.ok inner1) st).issueTime = some t1)
    (hresp : t1 ≤ resp1)
    (h2 : (search_cities q2 l2 now2 resp2 net2
        (search_cities q1 l1 now1 resp1 (.ok inner1) st).state).issueTime
      = some t2) :
    t1 + 1 ≤ t2 ∧ (now2 < resp1 + 1 → t2 = resp1 + 1) := by
  have hlast := search_cities_state_of_ok q1 l1 now1 resp1 inner1 st t1 h1
  have ht2 := search_cities_issueTime_eq q2 l2 now2 resp2 net2 _ t2 h2
  rw [hlast] at ht2
  by_cases hlt : now2 - resp1 < 1
  · rw [if_pos hlt] at ht2
    exact ⟨by linarith, fun _ => ht2⟩
  · rw [if_neg hlt] at ht2
    constructor
    · have : resp1 + 1 ≤ now2 := by linarith [not_lt.mp hlt]
      linarith
    · intro hc
      have : resp1 + 1 ≤ now2 := by linarith [not_lt.mp hlt]
      linarith

/-- Witness for C9 amended: first call completes its exchange at time 100
(JSON decode fails, so nothing is cached and the repeat still goes out);
the second call starts at 100.5 and is forced to issue at 101, one second
after the first request. -/
theorem c9_rate_limit_amended_witness :
    (100 : ℚ) + 1 ≤ 101 ∧ ((201 / 2 : ℚ) < 100 + 1 → (101 : ℚ) = 100 + 1) := by
  have h1 : (search_cities "lo" 10 100 100 (.ok (.error "badjson"))
      caInit).issueTime = some 100 := by with_unfolding_all decide
  have h2 : (search_cities "lo" 10 (201 / 2) (201 / 2) (.error "conn")
      (search_cities "lo" 10 100 100 (.ok (.error "badjson")) caInit).state).issueTime
      = some 101 := by with_unfolding_all decide
  exact c9_rate_limit_amended "lo" "lo" 10 10 caInit 100 100 (201 / 2) (201 / 2)
    (.error "badjson") (.error "conn") 100 101 h1 (by norm_num) h2
